import Mathlib

/-!
Shallow embedding of the Starling Bank beancount importer
(`starlingbank_importer.py`) and of the transaction-assembly step of the
downloader (`starlingbank_download.py`).

Modelling conventions:
* Python `Decimal` arithmetic on integer minor units is modelled by exact
  rationals (`Rat`); `round(-, 5)` is modelled by round-half-even at five
  decimal places, which is Python's rounding mode for `Decimal`.
* ISO timestamp strings that the code only ever feeds through
  `parse_transaction_time` (i.e. `datetime.fromisoformat(s).date()`) are
  abstracted to the resulting calendar date, represented as an integer day
  number `Date`; `datetime.timedelta(days=1)` becomes `+ 1`.
* Fallible Python code (uncaught `KeyError` / `TypeError` /
  `decimal.DivisionByZero` exceptions) is modelled with `Except Unit`.
* A JSON key that the code tests for presence (`"reference" in transaction`,
  `spaces.get("savingsGoals")`, ...) is modelled as an `Option` field; keys
  the code indexes unconditionally are plain fields.
* `data.new_metadata(filepath, lineno, meta)` attaches the filename and a
  monotonically increasing line number; only the key/value mapping `meta`
  is observable in the claims, so metadata is modelled as an ordered
  key/value list and the filename/lineno pair is dropped.  Because the
  lineno counter is strictly increasing in emission order, `data.sorted`
  (which sorts by date, then entry-type order, then lineno) is modelled as
  a stable structural sort on the (date, entry-type order) key.
-/

namespace Starling

/-- Calendar dates, abstracted to integer day numbers (see module comment). -/
abbrev Date := Int

/-- A monetary value as the API reports it: integer minor units plus an ISO
currency code.  Used for `amount`, `sourceAmount` and
`balance.totalClearedBalance`. -/
structure MonetaryAmount where
  minorUnits : Int
  currency : String
  deriving DecidableEq, Repr

/-- A decimal amount as beancount sees it (`data.Amount` / `amount.Amount`):
a number together with a currency string. -/
structure Amount where
  number : Rat
  currency : String
  deriving DecidableEq, Repr

/-- One feed item of the `transactions.feedItems` list.  Fields the importer
indexes unconditionally are plain; `reference` and `counterPartySubEntityName`
are tested with `in` before use, so they are `Option`. `transactionTime`
carries the parsed calendar date (see module comment); `settlementTime` and
`updatedAt` are only copied verbatim into metadata, so they stay strings. -/
structure Transaction where
  feedItemUid : String
  categoryUid : String
  amount : MonetaryAmount
  sourceAmount : MonetaryAmount
  direction : String
  counterPartyType : String
  counterPartyUid : String
  counterPartyName : String
  counterPartySubEntityUid : String
  counterPartySubEntityIdentifier : String
  counterPartySubEntitySubIdentifier : String
  counterPartySubEntityName : Option String
  reference : Option String
  source : String
  status : String
  transactionTime : Date
  settlementTime : String
  updatedAt : String
  deriving DecidableEq, Repr

/-- One account of a payee in the `payees` list. -/
structure PayeeAccount where
  payeeAccountUid : String
  bankIdentifier : String
  accountIdentifier : String
  description : String
  deriving DecidableEq, Repr

/-- One payee of the `payees` list. -/
structure Payee where
  payeeUid : String
  accounts : List PayeeAccount
  deriving DecidableEq, Repr

/-- One savings goal of `spaces.savingsGoals`. -/
structure Space where
  savingsGoalUid : String
  name : String
  deriving DecidableEq, Repr

/-- The `account` object of a snapshot file.  `accountUid` and
`defaultCategory` are tested with `in` before use, so they are `Option`. -/
structure AccountInfo where
  accountUid : Option String
  defaultCategory : Option String
  deriving DecidableEq, Repr

/-- The parsed content of one downloaded snapshot file.
`account = none` models a JSON document without an `"account"` key
(an uncaught `KeyError` in `get_account_default_category`, but a caught one
in `get_account_id`).  `transactions = none` models a missing
`"transactions"` key or a `transactions` object without `"feedItems"`:
either way `Importer.extract` raises.  `savingsGoals = none` models a
`"spaces"` object without a `"savingsGoals"` key, over which
`get_category_name` raises when it iterates the resulting `None`. -/
structure SnapshotDoc where
  account : Option AccountInfo
  transactions : Option (List Transaction)
  savingsGoals : Option (List Space)
  payees : List Payee
  balance : MonetaryAmount
  deriving DecidableEq, Repr

/-- A candidate input file as `Importer.identify` sees it: its guessed
mimetype is not JSON, or it is JSON-typed but `json.load` fails on its
content, or it parses to a snapshot document. -/
inductive File where
  | notJson : File
  | malformed : File
  | json : SnapshotDoc → File
  deriving DecidableEq, Repr

/-- Constructor parameters of `Importer`: the `accountUid` to match and the
ledger account to post against (`self.account_id`, `self.importer_account`). -/
structure Config where
  account_id : String
  importer_account : String
  deriving DecidableEq, Repr

/-- A metadata value: a string, a raw timestamp date, or Python `None`
(only `bank_space_name` can be `None`). -/
inductive MetaValue where
  | str : String → MetaValue
  | date : Date → MetaValue
  | none : MetaValue
  deriving DecidableEq, Repr

/-- Metadata in insertion order, as built up by `Importer.extract`. -/
abbrev Metadata := List (String × MetaValue)

/-- One posting (`data.Posting`): ledger account, signed decimal number and
currency of the posted units, and an optional unit price. -/
structure Posting where
  account : String
  units : Rat
  currency : String
  price : Option Amount
  deriving DecidableEq, Repr

/-- A ledger entry: a transaction (`data.Transaction` with flag `FLAG_OKAY`,
empty tags and links; metadata, date, payee, narration, postings) or a
balance assertion (`data.Balance`: date, account, amount). -/
inductive Entry where
  | txn : Metadata → Date → String → String → List Posting → Entry
  | bal : Date → String → Amount → Entry
  deriving DecidableEq, Repr

/-- Does the character list `pat` start the character list `hay`? -/
def charsStart : List Char → List Char → Bool
  | [], _ => true
  | _ :: _, [] => false
  | a :: as, b :: bs => a == b && charsStart as bs

/-- Does the character list `pat` occur contiguously inside `hay`? -/
def charsIn (pat : List Char) : List Char → Bool
  | [] => pat.isEmpty
  | b :: bs => charsStart pat (b :: bs) || charsIn pat bs

/-- Python's substring test `pat in hay` on strings. -/
def strContains (hay pat : String) : Bool :=
  charsIn pat.toList hay.toList

/-- `get_account_id` (importer lines 186-199): `False` when the guessed
mimetype is not JSON; otherwise parse the file and return
`account.accountUid`, with a missing `"account"` key caught (`KeyError`)
and a missing `"accountUid"` key handled, both yielding `False`.
`json.load` failing on a JSON-typed file raises `json.JSONDecodeError`,
which the `except KeyError` clause does not catch, so that case is an
error.  The Python `False` result is modelled as `Option.none`. -/
def get_account_id : File → Except Unit (Option String)
  | File.notJson => Except.ok Option.none
  | File.malformed => Except.error ()
  | File.json doc =>
    match doc.account with
    | Option.none => Except.ok Option.none
    | Option.some a => Except.ok a.accountUid

/-- `Importer.identify` (lines 42-44): compare the result of
`get_account_id` with the configured `account_id` (Python compares the
string `account_id` against either a uid string or `False`). -/
def identify (cfg : Config) (f : File) : Except Unit Bool :=
  match get_account_id f with
  | Except.error e => Except.error e
  | Except.ok r => Except.ok (r == Option.some cfg.account_id)

/-- `get_account_default_category` (lines 201-211): indexing
`json.load(...)["account"]` raises `KeyError` if the key is missing
(not caught here); a present `account` without `"defaultCategory"`
returns `False`, modelled as `Option.none`.  The non-JSON-mimetype branch
is irrelevant for `extract`, which is only invoked on identified files. -/
def get_account_default_category (doc : SnapshotDoc) : Except Unit (Option String) :=
  match doc.account with
  | Option.none => Except.error ()
  | Option.some a => Except.ok a.defaultCategory

/-- `get_transactions` (lines 225-235): returns `transactions.feedItems`.
A missing `"transactions"` key raises; a missing `"feedItems"` key returns
`False`, over which `extract` then raises `TypeError` when it calls
`reversed(False)`.  Both failure modes are collapsed into the error case. -/
def get_transactions (doc : SnapshotDoc) : Except Unit (List Transaction) :=
  match doc.transactions with
  | Option.none => Except.error ()
  | Option.some ts => Except.ok ts

/-- `get_balance` (lines 270-272): `balance.totalClearedBalance`. -/
def get_balance (doc : SnapshotDoc) : MonetaryAmount :=
  doc.balance

/-- Round a rational to the nearest integer, ties to even — the rounding
mode of Python `round` on `Decimal` (`ROUND_HALF_EVEN`). -/
def roundHalfEven (q : Rat) : Int :=
  let f : Int := ⌊q⌋
  let r : Rat := q - (f : Rat)
  if r < 1 / 2 then f
  else if 1 / 2 < r then f + 1
  else if f % 2 = 0 then f else f + 1

/-- Python `round(q, 5)` on a `Decimal`: half-even at five decimal places. -/
def round5 (q : Rat) : Rat :=
  (roundHalfEven (q * 100000) : Rat) / 100000

/-- `get_unit_price` (lines 238-249): when `sourceAmount.currency`
differs from `amount.currency` and `sourceAmount.minorUnits` is nonzero,
divide the foreign total by the local total, take the absolute value and
round to 5 decimal places; otherwise `None`.  When the guard passes but
`amount.minorUnits = 0`, Python `Decimal` division raises
`decimal.DivisionByZero`, modelled as the error case. -/
def get_unit_price (t : Transaction) : Except Unit (Option Amount) :=
  if t.sourceAmount.currency ≠ t.amount.currency ∧ t.sourceAmount.minorUnits ≠ 0 then
    if t.amount.minorUnits = 0 then Except.error ()
    else
      Except.ok (Option.some
        { number := round5 |(t.sourceAmount.minorUnits : Rat) / (t.amount.minorUnits : Rat)|
          currency := t.sourceAmount.currency })
  else Except.ok Option.none

/-- Inner loop of `get_payee_account`: first account of the list whose
`payeeAccountUid` matches. -/
def find_payee_account (payeeAccountUid : String) : List PayeeAccount → Option PayeeAccount
  | [] => Option.none
  | a :: rest =>
    if a.payeeAccountUid == payeeAccountUid then Option.some a
    else find_payee_account payeeAccountUid rest

/-- `get_payee_account` (lines 252-260): scan the payees in order; for each
payee whose `payeeUid` matches, scan its accounts and return the first
account whose `payeeAccountUid` matches; `None` when nothing matches
(the outer loop continues past a matching payee with no matching account). -/
def get_payee_account (payees : List Payee) (payeeUid payeeAccountUid : String) :
    Option PayeeAccount :=
  match payees with
  | [] => Option.none
  | p :: rest =>
    if p.payeeUid == payeeUid then
      match find_payee_account payeeAccountUid p.accounts with
      | Option.some a => Option.some a
      | Option.none => get_payee_account rest payeeUid payeeAccountUid
    else get_payee_account rest payeeUid payeeAccountUid

/-- `get_category_name` (lines 262-268): iterate
`spaces.get("savingsGoals")` and return the name of the first space whose
`savingsGoalUid` matches, else `None`.  When the `"savingsGoals"` key is
absent, `.get` yields `None` and the `for` loop raises `TypeError`,
modelled as the error case. -/
def get_category_name (doc : SnapshotDoc) (categoryUid : String) :
    Except Unit (Option String) :=
  match doc.savingsGoals with
  | Option.none => Except.error ()
  | Option.some spaces =>
    Except.ok ((spaces.find? (fun s => s.savingsGoalUid == categoryUid)).map Space.name)

/-- `VALID_STATUS` (line 31): the statuses the importer keeps. -/
def VALID_STATUS : List String := ["SETTLED", "REFUNDED", "ACCOUNT_CHECK"]

/-- Which branch of the counterparty `if`/`elif` chain (lines 85-112) a
transaction takes.  The Python tests are substring tests (`in` on strings),
tried in order. -/
inductive CpBranch where
  | sender : CpBranch
  | payee : CpBranch
  | category : CpBranch
  | other : CpBranch
  deriving DecidableEq, Repr

/-- The condition of the first branch: `"SENDER" in counterPartyType and
"STARLING_PAY_STRIPE" not in source`. -/
def senderCond (t : Transaction) : Bool :=
  strContains t.counterPartyType "SENDER" && !strContains t.source "STARLING_PAY_STRIPE"

/-- Branch selection of the counterparty `if`/`elif` chain (lines 85-112).
Only the `payee` branch calls `get_payee_account`. -/
def cpBranch (t : Transaction) : CpBranch :=
  if senderCond t then CpBranch.sender
  else if strContains t.counterPartyType "PAYEE" then CpBranch.payee
  else if strContains t.counterPartyType "CATEGORY" then CpBranch.category
  else CpBranch.other

/-- `metadata["bank_space_name"] = get_category_name(...)`: a `None` result
is stored as a null metadata value (the key stays present). -/
def optMeta : Option String → MetaValue
  | Option.some s => MetaValue.str s
  | Option.none => MetaValue.none

/-- The metadata pairs the counterparty branch (lines 85-112) appends:
the sub-entity identifiers for a `SENDER`, the looked-up payee account (or
nothing when the lookup returns `None`) for a `PAYEE`, the raw counterparty
type/uid/name for a `CATEGORY`, nothing otherwise. -/
def cpMeta (doc : SnapshotDoc) (t : Transaction) : Metadata :=
  match cpBranch t with
  | CpBranch.sender =>
    [("counterparty_sort_code", MetaValue.str t.counterPartySubEntityIdentifier),
     ("counterparty_account_number", MetaValue.str t.counterPartySubEntitySubIdentifier)]
  | CpBranch.payee =>
    match get_payee_account doc.payees t.counterPartyUid t.counterPartySubEntityUid with
    | Option.some a =>
      [("counterparty_sort_code", MetaValue.str a.bankIdentifier),
       ("counterparty_account_number", MetaValue.str a.accountIdentifier),
       ("counterparty_account_description", MetaValue.str a.description)]
    | Option.none => []
  | CpBranch.category =>
    [("counterparty_type", MetaValue.str t.counterPartyType),
     ("counterparty_uid", MetaValue.str t.counterPartyUid),
     ("counterparty_name", MetaValue.str t.counterPartyName)]
  | CpBranch.other => []

/-- The metadata dictionary built for one transaction (lines 67-112), in
insertion order.  Errors when the space-name lookup raises. -/
def transactionMetadata (doc : SnapshotDoc) (default_category : Option String)
    (t : Transaction) : Except Unit Metadata :=
  let m1 : Metadata := [("bank_id", MetaValue.str t.feedItemUid)]
  let m2res : Except Unit Metadata :=
    if Option.some t.categoryUid ≠ default_category then
      match get_category_name doc t.categoryUid with
      | Except.error e => Except.error e
      | Except.ok name =>
        Except.ok (m1 ++ [("bank_category", MetaValue.str t.categoryUid),
                          ("bank_space_name", optMeta name)])
    else Except.ok m1
  match m2res with
  | Except.error e => Except.error e
  | Except.ok m2 =>
    let m3 : Metadata :=
      match t.reference with
      | Option.some r => m2 ++ [("bank_description", MetaValue.str r)]
      | Option.none => m2
    let m4 : Metadata :=
      m3 ++ [("bank_created_date", MetaValue.date t.transactionTime),
             ("bank_settlement_date", MetaValue.str t.settlementTime),
             ("bank_updated_date", MetaValue.str t.updatedAt)]
    Except.ok (m4 ++ cpMeta doc t)

/-- The narration (line 127): `" / ".join(filter(None, [name, reference,
source]))`, where `name`/`reference` are `None` when the key is absent and
`filter(None, -)` drops both `None` and empty strings. -/
def narrationOf (t : Transaction) : String :=
  String.intercalate " / "
    (([t.counterPartySubEntityName.getD "", t.reference.getD "", t.source]).filter
      (fun s => s ≠ ""))

/-- The postings built for one transaction (lines 129-150): `unit` is
`minorUnits / 100` in the transaction currency; an `OUT` transaction posts
`-unit` (plus a second `+unit` posting when `source == "INTERNAL_TRANSFER"`),
any other direction posts `+unit` (plus a second `-unit` posting when
`source == "INTERNAL_TRANSFER"`); every posting is on the configured ledger
account and carries the optional unit price. -/
def buildPostings (acct : String) (t : Transaction) (price : Option Amount) :
    List Posting :=
  let unit : Rat := (t.amount.minorUnits : Rat) / 100
  let cur : String := t.amount.currency
  if t.direction == "OUT" then
    if t.source == "INTERNAL_TRANSFER" then
      [{ account := acct, units := -unit, currency := cur, price := price },
       { account := acct, units := unit, currency := cur, price := price }]
    else
      [{ account := acct, units := -unit, currency := cur, price := price }]
  else
    if t.source == "INTERNAL_TRANSFER" then
      [{ account := acct, units := unit, currency := cur, price := price },
       { account := acct, units := -unit, currency := cur, price := price }]
    else
      [{ account := acct, units := unit, currency := cur, price := price }]

/-- The `data.Transaction` entry built for one valid-status transaction
(loop body, lines 67-158): metadata, date parsed from `transactionTime`,
payee `counterPartyName`, the joined narration, and the postings. -/
def extractEntry (acct : String) (doc : SnapshotDoc) (dc : Option String)
    (t : Transaction) : Except Unit Entry :=
  match transactionMetadata doc dc t with
  | Except.error e => Except.error e
  | Except.ok meta =>
    match get_unit_price t with
    | Except.error e => Except.error e
    | Except.ok price =>
      Except.ok (Entry.txn meta t.transactionTime t.counterPartyName (narrationOf t)
        (buildPostings acct t price))

/-- The extraction loop over the (already reversed and status-filtered)
transactions, sequential and fail-fast like the Python `for` loop. -/
def extractEntries (acct : String) (doc : SnapshotDoc) (dc : Option String) :
    List Transaction → Except Unit (List Entry)
  | [] => Except.ok []
  | t :: ts =>
    match extractEntry acct doc dc t with
    | Except.error e => Except.error e
    | Except.ok en =>
      match extractEntries acct doc dc ts with
      | Except.error e => Except.error e
      | Except.ok ens => Except.ok (en :: ens)

/-- Date accessor of an entry. -/
def entryDate : Entry → Date
  | Entry.txn _ d _ _ _ => d
  | Entry.bal d _ _ => d

/-- Is the entry a transaction entry? -/
def isTxnEntry : Entry → Bool
  | Entry.txn _ _ _ _ _ => true
  | Entry.bal _ _ _ => false

/-- Is the entry a balance-assertion entry? -/
def isBalEntry : Entry → Bool
  | Entry.txn _ _ _ _ _ => false
  | Entry.bal _ _ _ => true

/-- Narration accessor of an entry (balance entries carry none). -/
def entryNarration : Entry → String
  | Entry.txn _ _ _ n _ => n
  | Entry.bal _ _ _ => ""

/-- Payee accessor of an entry (balance entries carry none). -/
def entryPayee : Entry → String
  | Entry.txn _ _ p _ _ => p
  | Entry.bal _ _ _ => ""

/-- Metadata accessor of an entry (balance entries carry none here; the
filename/lineno pair of `data.new_metadata` is not modelled). -/
def entryMeta : Entry → Metadata
  | Entry.txn m _ _ _ _ => m
  | Entry.bal _ _ _ => []

/-- beancount `data.entry_sortkey` type order: `Balance` sorts before
`Transaction` on the same date (`SORT_ORDER` gives `Balance` -1,
`Transaction` 0). -/
def entrySortOrder : Entry → Int
  | Entry.txn _ _ _ _ _ => 0
  | Entry.bal _ _ _ => -1

/-- The comparison used by `data.sorted`: by date, then by entry-type
order.  The third key component, the metadata lineno, increases in emission
order, so a stable sort on the first two components is equivalent. -/
def entryLE (a b : Entry) : Bool :=
  entryDate a < entryDate b ||
    (entryDate a == entryDate b && entrySortOrder a ≤ entrySortOrder b)

/-- `data.sorted` (line 183), modelled as a stable structural sort
(insertion sort is stable for the reflexive total comparison `entryLE`,
matching Python's stable `sorted`). -/
def sortEntries (es : List Entry) : List Entry :=
  es.insertionSort (fun a b => entryLE a b = true)

/-- `Importer.extract` up to (but not including) the final `data.sorted`
call (lines 56-181): the transaction entries in emission order followed by
the one balance entry, whose date is the date of the last emitted entry
(`entries[-1].date`, or `datetime.date.today()` when the list is empty)
plus one day, and whose amount is `totalClearedBalance.minorUnits / 100`
in `totalClearedBalance.currency`, on the configured ledger account. -/
def extractRaw (cfg : Config) (doc : SnapshotDoc) (today : Date) :
    Except Unit (List Entry) :=
  match get_account_default_category doc with
  | Except.error e => Except.error e
  | Except.ok dc =>
    match get_transactions doc with
    | Except.error e => Except.error e
    | Except.ok transactions =>
      match extractEntries cfg.importer_account doc dc
          (transactions.reverse.filter (fun t => VALID_STATUS.contains t.status)) with
      | Except.error e => Except.error e
      | Except.ok entries =>
        let balance_date : Date :=
          (match entries.getLast? with
           | Option.some e => entryDate e
           | Option.none => today) + 1
        let bal : MonetaryAmount := get_balance doc
        Except.ok (entries ++
          [Entry.bal balance_date cfg.importer_account
            { number := (bal.minorUnits : Rat) / 100, currency := bal.currency }])

/-- `Importer.extract` (lines 56-183): the raw entry list passed through
`data.sorted`. -/
def extract (cfg : Config) (doc : SnapshotDoc) (today : Date) :
    Except Unit (List Entry) :=
  match extractRaw cfg doc today with
  | Except.error e => Except.error e
  | Except.ok raw => Except.ok (sortEntries raw)

/-- `get_account_transactions` of `starlingbank_download.py` (lines 74-115),
with the HTTP layer abstracted to a function `feed` from a category uid to
the feed items the API returns for it.  The result accumulates the default
category's feed items, then, looping over the `savingsGoalUid` of every
space in the spaces response (a missing `"savingsGoals"` key is caught as
`KeyError` and treated as no spaces), appends that category's feed items.
The type of individual feed items is irrelevant here, so it is a parameter. -/
def get_account_transactions {α : Type} (feed : String → List α)
    (defaultCategory : String) (savingsGoals : Option (List Space)) : List α :=
  let transactions : List α := feed defaultCategory
  let spaces_categories : List String :=
    match savingsGoals with
    | Option.none => []
    | Option.some spaces => spaces.map Space.savingsGoalUid
  spaces_categories.foldl (fun acc c => acc ++ feed c) transactions

/-- A concrete settled card payment, the base of the concrete inputs below. -/
def sampleTxn : Transaction :=
  { feedItemUid := "feed-1", categoryUid := "cat-d",
    amount := { minorUnits := 1000, currency := "GBP" },
    sourceAmount := { minorUnits := 1000, currency := "GBP" },
    direction := "OUT", counterPartyType := "MERCHANT",
    counterPartyUid := "cp-1", counterPartyName := "Shop",
    counterPartySubEntityUid := "se-1",
    counterPartySubEntityIdentifier := "60-83-71",
    counterPartySubEntitySubIdentifier := "12345678",
    counterPartySubEntityName := Option.some "High Street",
    reference := Option.some "Groceries", source := "MASTER_CARD",
    status := "SETTLED", transactionTime := 20000,
    settlementTime := "2024-03-01T10:00:00Z", updatedAt := "2024-03-01T11:00:00Z" }

/-- A concrete account object matching the configured importer. -/
def sampleAccount : AccountInfo :=
  { accountUid := Option.some "acc-1", defaultCategory := Option.some "cat-d" }

/-- A concrete snapshot document with a single settled transaction. -/
def sampleDoc : SnapshotDoc :=
  { account := Option.some sampleAccount,
    transactions := Option.some [sampleTxn],
    savingsGoals := Option.some [],
    payees := [],
    balance := { minorUnits := 12345, currency := "GBP" } }

/-- A concrete importer configuration. -/
def sampleCfg : Config :=
  { account_id := "acc-1", importer_account := "Assets:Starling" }

/-- The five-item feed of the C1 instance: four importable statuses and one
`DECLINED` item. -/
def c1feed : List Transaction :=
  [{ sampleTxn with feedItemUid := "f-1", status := "SETTLED", transactionTime := 20001 },
   { sampleTxn with feedItemUid := "f-2", status := "REFUNDED", direction := "IN",
                    transactionTime := 20002 },
   { sampleTxn with feedItemUid := "f-3", status := "ACCOUNT_CHECK",
                    amount := { minorUnits := 0, currency := "GBP" },
                    sourceAmount := { minorUnits := 0, currency := "GBP" },
                    transactionTime := 20003 },
   { sampleTxn with feedItemUid := "f-4", status := "DECLINED", transactionTime := 20004 },
   { sampleTxn with feedItemUid := "f-5", status := "SETTLED", transactionTime := 20005 }]

/-- The C1 snapshot document holding `c1feed`. -/
def c1doc : SnapshotDoc := { sampleDoc with transactions := Option.some c1feed }

/-- The entries `extract` produces from `c1doc`. -/
def c1out : List Entry := ((extract sampleCfg c1doc 0).toOption).getD []

/-- A concrete importable `OUT` transaction that is not an internal transfer
and has `amount.minorUnits = 0` (a zero-amount `ACCOUNT_CHECK` item, which
passes the status filter). -/
def c2zero : Transaction :=
  { sampleTxn with
    status := "ACCOUNT_CHECK",
    amount := { minorUnits := 0, currency := "GBP" },
    sourceAmount := { minorUnits := 0, currency := "GBP" } }

/-- A concrete `OUT` internal transfer. -/
def c2transfer : Transaction :=
  { sampleTxn with source := "INTERNAL_TRANSFER" }

/-- The raw entries extracted from the one-transaction `sampleDoc`. -/
def c3raw : List Entry := ((extractRaw sampleCfg sampleDoc 0).toOption).getD []

/-- A concrete transaction whose foreign/local ratio rounds to zero at five
decimal places: `amount = 1000000 GBP`, `sourceAmount = 1 USD`. -/
def c4tiny : Transaction :=
  { sampleTxn with
    amount := { minorUnits := 1000000, currency := "GBP" },
    sourceAmount := { minorUnits := 1, currency := "USD" } }

/-- A concrete foreign-currency transaction: `amount = 1000 GBP`,
`sourceAmount = 1100 USD`. -/
def c4fx : Transaction :=
  { sampleTxn with
    amount := { minorUnits := 1000, currency := "GBP" },
    sourceAmount := { minorUnits := 1100, currency := "USD" } }

/-- The unit price computed for `c4fx`: `1.1 USD`. -/
def c4fxPrice : Option Amount := Option.some { number := 11 / 10, currency := "USD" }

/-- The condition under which `get_unit_price` reaches its division
(line 246): the outer guard of lines 239-242. -/
def divisionReached (t : Transaction) : Prop :=
  t.sourceAmount.currency ≠ t.amount.currency ∧ t.sourceAmount.minorUnits ≠ 0

/-- A concrete transaction on which the division is reached with divisor
zero: currencies differ, `sourceAmount.minorUnits = 1100`, but
`amount.minorUnits = 0` — the division's divisor. -/
def c5zero : Transaction :=
  { sampleTxn with
    amount := { minorUnits := 0, currency := "GBP" },
    sourceAmount := { minorUnits := 1100, currency := "USD" } }

/-- A concrete foreign-currency transaction with a nonzero divisor. -/
def c5fx : Transaction :=
  { sampleTxn with
    amount := { minorUnits := 2000, currency := "GBP" },
    sourceAmount := { minorUnits := 2200, currency := "USD" } }

/-- A configuration whose account identifier does not occur in
`sampleDoc`. -/
def c6otherCfg : Config :=
  { account_id := "acc-2", importer_account := "Assets:Starling" }

/-- The entry extracted from `sampleTxn` (used by the C8 witness). -/
def c8entry : Entry :=
  ((extractEntry "Assets:Starling" sampleDoc (Option.some "cat-d") sampleTxn).toOption).getD
    (Entry.bal 0 "" { number := 0, currency := "" })

/-- A concrete transaction whose `counterPartyType` contains `CATEGORY`
(and also `PAYEE`), with a non-Stripe source. -/
def c9txn : Transaction :=
  { sampleTxn with
    counterPartyType := "PAYEE CATEGORY",
    source := "FASTER_PAYMENTS",
    counterPartyUid := "p-uid",
    counterPartySubEntityUid := "pa-uid" }

/-- A payees list containing the pair `c9txn` references. -/
def c9payees : List Payee :=
  [{ payeeUid := "p-uid",
     accounts := [{ payeeAccountUid := "pa-uid", bankIdentifier := "60-83-71",
                    accountIdentifier := "87654321", description := "Savings" }] }]

/-- The snapshot document with `c9payees`. -/
def c9doc : SnapshotDoc := { sampleDoc with payees := c9payees }

/-- The metadata `transactionMetadata` builds for `c9txn` against `c9doc`. -/
def c9meta : Metadata :=
  [("bank_id", MetaValue.str "feed-1"),
   ("bank_description", MetaValue.str "Groceries"),
   ("bank_created_date", MetaValue.date 20000),
   ("bank_settlement_date", MetaValue.str "2024-03-01T10:00:00Z"),
   ("bank_updated_date", MetaValue.str "2024-03-01T11:00:00Z"),
   ("counterparty_sort_code", MetaValue.str "60-83-71"),
   ("counterparty_account_number", MetaValue.str "87654321"),
   ("counterparty_account_description", MetaValue.str "Savings")]

/-- The metadata keys `transactionMetadata` can produce outside the
counterparty branch. -/
def baseMetaKeys : List String :=
  ["bank_id", "bank_category", "bank_space_name", "bank_description",
   "bank_created_date", "bank_settlement_date", "bank_updated_date"]

/-- A concrete category-type counterparty transaction. -/
def c9cat : Transaction := { sampleTxn with counterPartyType := "CATEGORY" }

/-- A concrete payee-type transaction whose pair has no match in the empty
payees list of `sampleDoc`. -/
def c9pay : Transaction :=
  { sampleTxn with
    counterPartyType := "PAYEE",
    counterPartyUid := "missing-p",
    counterPartySubEntityUid := "missing-a" }

/-- A concrete valid-status feed item that lives in a space (its
`categoryUid` is not the account default). -/
def c10tx : Transaction := { sampleTxn with categoryUid := "space-1" }

/-- A snapshot document holding `c10tx` whose spaces object has no
`savingsGoals` key. -/
def c10doc : SnapshotDoc :=
  { sampleDoc with
    transactions := Option.some [c10tx],
    savingsGoals := Option.none }

/-- A snapshot document whose `savingsGoals` list has no goal matching
`c10tx.categoryUid`. -/
def c10doc2 : SnapshotDoc :=
  { sampleDoc with
    savingsGoals := Option.some [{ savingsGoalUid := "other-goal", name := "Other" }] }

/-- A successfully extracted entry is a transaction entry. -/
theorem extractEntry_isTxn {acct : String} {doc : SnapshotDoc} {dc : Option String}
    {t : Transaction} {e : Entry} (h : extractEntry acct doc dc t = Except.ok e) :
    isTxnEntry e = true := by
  unfold extractEntry at h
  cases hm : transactionMetadata doc dc t <;> rw [hm] at h
  · cases h
  · cases hp : get_unit_price t <;> rw [hp] at h
    · cases h
    · simp only [Except.ok.injEq] at h
      rw [← h]
      rfl

/-- The loop yields one entry per input transaction. -/
theorem extractEntries_length {acct : String} {doc : SnapshotDoc} {dc : Option String} :
    ∀ {l : List Transaction} {es : List Entry},
      extractEntries acct doc dc l = Except.ok es → es.length = l.length
  | [], es, h => by
    simp only [extractEntries, Except.ok.injEq] at h
    simp [← h]
  | t :: ts, es, h => by
    simp only [extractEntries] at h
    cases he : extractEntry acct doc dc t <;> rw [he] at h
    · cases h
    · cases hr : extractEntries acct doc dc ts <;> rw [hr] at h
      · cases h
      · simp only [Except.ok.injEq] at h
        rw [← h]
        simp [extractEntries_length hr]

/-- Every entry the loop yields is a transaction entry. -/
theorem extractEntries_all_txn {acct : String} {doc : SnapshotDoc} {dc : Option String} :
    ∀ {l : List Transaction} {es : List Entry},
      extractEntries acct doc dc l = Except.ok es → ∀ e ∈ es, isTxnEntry e = true
  | [], es, h => by
    simp only [extractEntries, Except.ok.injEq] at h
    simp [← h]
  | t :: ts, es, h => by
    simp only [extractEntries] at h
    cases he : extractEntry acct doc dc t <;> rw [he] at h
    · cases h
    · cases hr : extractEntries acct doc dc ts <;> rw [hr] at h
      · cases h
      · simp only [Except.ok.injEq] at h
        rw [← h]
        intro e he2
        rcases List.mem_cons.mp he2 with h1 | h2
        · rw [h1]; exact extractEntry_isTxn he
        · exact extractEntries_all_txn hr e h2

/-- If the loop succeeds, every input transaction extracted successfully. -/
theorem extractEntries_mem_ok {acct : String} {doc : SnapshotDoc} {dc : Option String} :
    ∀ {l : List Transaction} {es : List Entry},
      extractEntries acct doc dc l = Except.ok es →
      ∀ t ∈ l, ∃ en, extractEntry acct doc dc t = Except.ok en
  | [], _, _ => by simp
  | t :: ts, es, h => by
    simp only [extractEntries] at h
    cases he : extractEntry acct doc dc t <;> rw [he] at h
    · cases h
    · cases hr : extractEntries acct doc dc ts <;> rw [hr] at h
      · cases h
      · intro x hx
        rcases List.mem_cons.mp hx with h1 | h2
        · exact ⟨_, h1 ▸ he⟩
        · exact extractEntries_mem_ok hr x h2

/-- If some input transaction fails to extract, the loop fails. -/
theorem extractEntries_error {acct : String} {doc : SnapshotDoc} {dc : Option String}
    {l : List Transaction} {t : Transaction} (hmem : t ∈ l)
    (herr : extractEntry acct doc dc t = Except.error ()) :
    extractEntries acct doc dc l = Except.error () := by
  cases hres : extractEntries acct doc dc l with
  | error e => cases e; rfl
  | ok es =>
    obtain ⟨en, hen⟩ := extractEntries_mem_ok hres t hmem
    rw [herr] at hen
    cases hen

/-- A successful `get_transactions` returns the `feedItems` list. -/
theorem get_transactions_ok {doc : SnapshotDoc} {ts : List Transaction}
    (h : get_transactions doc = Except.ok ts) : doc.transactions = Option.some ts := by
  unfold get_transactions at h
  cases hdt : doc.transactions <;> rw [hdt] at h
  · cases h
  · simp only [Except.ok.injEq] at h
    rw [h]

/-- Inversion of `extractRaw`: a successful extraction decomposes into the
default category, the feed items, the per-transaction entries, and the
appended balance entry. -/
theorem extractRaw_inv {cfg : Config} {doc : SnapshotDoc} {today : Date}
    {raw : List Entry} (h : extractRaw cfg doc today = Except.ok raw) :
    ∃ dc ts entries,
      get_account_default_category doc = Except.ok dc ∧
      doc.transactions = Option.some ts ∧
      extractEntries cfg.importer_account doc dc
        (ts.reverse.filter (fun t => VALID_STATUS.contains t.status)) = Except.ok entries ∧
      raw = entries ++
        [Entry.bal ((match entries.getLast? with
                     | Option.some e => entryDate e
                     | Option.none => today) + 1)
          cfg.importer_account
          { number := (doc.balance.minorUnits : Rat) / 100,
            currency := doc.balance.currency }] := by
  unfold extractRaw at h
  split at h
  · cases h
  next dc hdc =>
    split at h
    · cases h
    next ts hts =>
      split at h
      · cases h
      next entries hent =>
        simp only [Except.ok.injEq] at h
        exact ⟨dc, ts, entries, hdc, get_transactions_ok hts, hent, h.symm⟩

/-- A successful `extract` is the sorted raw entry list. -/
theorem extract_eq_sorted {cfg : Config} {doc : SnapshotDoc} {today : Date}
    {out : List Entry} (h : extract cfg doc today = Except.ok out) :
    ∃ raw, extractRaw cfg doc today = Except.ok raw ∧ out = sortEntries raw := by
  unfold extract at h
  cases hr : extractRaw cfg doc today <;> rw [hr] at h
  · cases h
  · simp only [Except.ok.injEq] at h
    exact ⟨_, rfl, h.symm⟩

/-- Sorting does not change any `countP`. -/
theorem countP_sortEntries (p : Entry → Bool) (es : List Entry) :
    (sortEntries es).countP p = es.countP p :=
  (List.perm_insertionSort (fun a b => entryLE a b = true) es).countP_eq p

/-- Claim C1: for every input file on which extraction succeeds, `extract`
emits one ledger transaction entry per feed item whose status is in
`VALID_STATUS` (= SETTLED, REFUNDED, ACCOUNT_CHECK) and no entry for any
feed item with any other status, plus exactly one balance entry. -/
theorem extract_status_filter (cfg : Config) (doc : SnapshotDoc) (today : Date)
    (out : List Entry) (h : extract cfg doc today = Except.ok out) :
    out.countP isTxnEntry
        = (doc.transactions.getD []).countP (fun t => VALID_STATUS.contains t.status) ∧
    out.countP isBalEntry = 1 := by
  obtain ⟨raw, hr, hout⟩ := extract_eq_sorted h
  obtain ⟨dc, ts, entries, hdc, hts, hent, hraw⟩ := extractRaw_inv hr
  subst hout
  rw [hts, Option.getD_some]
  have htxn : ∀ e ∈ entries, isTxnEntry e = true := extractEntries_all_txn hent
  have hlen : entries.length
      = (ts.reverse.filter (fun t => VALID_STATUS.contains t.status)).length :=
    extractEntries_length hent
  constructor
  · rw [countP_sortEntries, hraw, List.countP_append]
    have h1 : entries.countP isTxnEntry = entries.length := List.countP_eq_length.mpr htxn
    have h2 : (ts.reverse.filter (fun t => VALID_STATUS.contains t.status)).length
        = ts.countP (fun t => VALID_STATUS.contains t.status) := by
      rw [← List.countP_eq_length_filter, List.countP_reverse]
    rw [h1, hlen, h2]
    simp [isTxnEntry]
  · rw [countP_sortEntries, hraw, List.countP_append]
    have h1 : entries.countP isBalEntry = 0 := by
      rw [List.countP_eq_zero]
      intro e he
      have := htxn e he
      cases e
      · simp [isBalEntry]
      · simp [isTxnEntry] at this
    rw [h1]
    simp [isBalEntry]

/-- Witness for C1: on the concrete five-item feed with one `DECLINED` item,
extraction succeeds and yields exactly four transaction entries and one
balance entry. -/
theorem extract_status_filter_witness :
    extract sampleCfg c1doc 0 = Except.ok c1out ∧
    c1out.countP isTxnEntry
        = (c1doc.transactions.getD []).countP (fun t => VALID_STATUS.contains t.status) ∧
    c1out.countP isBalEntry = 1 ∧
    c1out.countP isTxnEntry = 4 :=
  have h : extract sampleCfg c1doc 0 = Except.ok c1out := rfl
  ⟨h, (extract_status_filter sampleCfg c1doc 0 c1out h).1,
   (extract_status_filter sampleCfg c1doc 0 c1out h).2, by decide⟩

/-- Counterexample to C2 as stated: `c2zero` is an importable `OUT`
transaction that is not an internal transfer, yet its single posting's
amount is `0`, which is not negative. -/
theorem postings_negative_counterexample :
    c2zero.direction = "OUT" ∧ c2zero.source ≠ "INTERNAL_TRANSFER" ∧
    VALID_STATUS.contains c2zero.status = true ∧
    buildPostings "Assets:Starling" c2zero Option.none
      = [{ account := "Assets:Starling", units := 0, currency := "GBP",
           price := Option.none }] ∧
    ¬ (0 : Rat) < 0 := by
  refine ⟨rfl, ?_, rfl, ?_, lt_irrefl 0⟩
  · intro h
    simp [c2zero, sampleTxn] at h
  · norm_num [buildPostings, c2zero, sampleTxn]
    decide

/-- Claim C2 (amended): for every transaction, if direction is `OUT` and
source is `INTERNAL_TRANSFER` the postings are exactly two, both on the
configured ledger account, with amounts that are negatives of each other of
magnitude `minorUnits / 100` (hence of opposite strict signs whenever
`minorUnits > 0`); any other `OUT` transaction yields exactly one posting
of amount `-(minorUnits / 100)` (negative whenever `minorUnits > 0`); a
non-`OUT` transaction yields the posting `+(minorUnits / 100)` (positive
whenever `minorUnits > 0`), with a second negated posting again added iff
source is `INTERNAL_TRANSFER`. -/
theorem postings_spec (acct : String) (t : Transaction) (price : Option Amount) :
    (t.direction = "OUT" ∧ t.source = "INTERNAL_TRANSFER" →
      ∃ p q, buildPostings acct t price = [p, q] ∧
        p.account = acct ∧ q.account = acct ∧
        q.units = -p.units ∧ p.units = -((t.amount.minorUnits : Rat) / 100) ∧
        (0 < t.amount.minorUnits → p.units < 0 ∧ 0 < q.units)) ∧
    (t.direction = "OUT" ∧ t.source ≠ "INTERNAL_TRANSFER" →
      ∃ p, buildPostings acct t price = [p] ∧ p.account = acct ∧
        p.units = -((t.amount.minorUnits : Rat) / 100) ∧
        (0 < t.amount.minorUnits → p.units < 0)) ∧
    (t.direction ≠ "OUT" ∧ t.source ≠ "INTERNAL_TRANSFER" →
      ∃ p, buildPostings acct t price = [p] ∧ p.account = acct ∧
        p.units = (t.amount.minorUnits : Rat) / 100 ∧
        (0 < t.amount.minorUnits → 0 < p.units)) ∧
    (t.direction ≠ "OUT" ∧ t.source = "INTERNAL_TRANSFER" →
      ∃ p q, buildPostings acct t price = [p, q] ∧
        p.account = acct ∧ q.account = acct ∧
        q.units = -p.units ∧ p.units = (t.amount.minorUnits : Rat) / 100 ∧
        (0 < t.amount.minorUnits → 0 < p.units ∧ q.units < 0)) := by
  have hpos : 0 < t.amount.minorUnits → (0 : Rat) < (t.amount.minorUnits : Rat) / 100 := by
    intro h
    have h1 : (0 : Rat) < (t.amount.minorUnits : Rat) := by exact_mod_cast h
    positivity
  refine ⟨?_, ?_, ?_, ?_⟩
  · rintro ⟨h1, h2⟩
    have h1b : (t.direction == "OUT") = true := beq_iff_eq.mpr h1
    have h2b : (t.source == "INTERNAL_TRANSFER") = true := beq_iff_eq.mpr h2
    refine ⟨{ account := acct, units := -((t.amount.minorUnits : Rat) / 100),
              currency := t.amount.currency, price := price },
            { account := acct, units := (t.amount.minorUnits : Rat) / 100,
              currency := t.amount.currency, price := price },
            ?_, rfl, rfl, by simp, rfl, ?_⟩
    · simp [buildPostings, h1b, h2b]
    · intro h
      exact ⟨neg_neg_of_pos (hpos h), hpos h⟩
  · rintro ⟨h1, h2⟩
    have h1b : (t.direction == "OUT") = true := beq_iff_eq.mpr h1
    have h2b : (t.source == "INTERNAL_TRANSFER") = false := beq_eq_false_iff_ne.mpr h2
    refine ⟨{ account := acct, units := -((t.amount.minorUnits : Rat) / 100),
              currency := t.amount.currency, price := price },
            ?_, rfl, rfl, ?_⟩
    · simp [buildPostings, h1b, h2b]
    · intro h
      exact neg_neg_of_pos (hpos h)
  · rintro ⟨h1, h2⟩
    have h1b : (t.direction == "OUT") = false := beq_eq_false_iff_ne.mpr h1
    have h2b : (t.source == "INTERNAL_TRANSFER") = false := beq_eq_false_iff_ne.mpr h2
    refine ⟨{ account := acct, units := (t.amount.minorUnits : Rat) / 100,
              currency := t.amount.currency, price := price },
            ?_, rfl, rfl, ?_⟩
    · simp [buildPostings, h1b, h2b]
    · intro h
      exact hpos h
  · rintro ⟨h1, h2⟩
    have h1b : (t.direction == "OUT") = false := beq_eq_false_iff_ne.mpr h1
    have h2b : (t.source == "INTERNAL_TRANSFER") = true := beq_iff_eq.mpr h2
    refine ⟨{ account := acct, units := (t.amount.minorUnits : Rat) / 100,
              currency := t.amount.currency, price := price },
            { account := acct, units := -((t.amount.minorUnits : Rat) / 100),
              currency := t.amount.currency, price := price },
            ?_, rfl, rfl, rfl, rfl, ?_⟩
    · simp [buildPostings, h1b, h2b]
    · intro h
      exact ⟨hpos h, neg_neg_of_pos (hpos h)⟩

/-- Witness for C2 (amended), at the concrete `OUT` internal transfer
`c2transfer`: two postings on the same account, negatives of each other,
the first strictly negative and the second strictly positive. -/
theorem postings_spec_witness :
    ∃ p q, buildPostings "Assets:Starling" c2transfer Option.none = [p, q] ∧
      p.account = "Assets:Starling" ∧ q.account = "Assets:Starling" ∧
      q.units = -p.units ∧ p.units = -((c2transfer.amount.minorUnits : Rat) / 100) ∧
      (0 < c2transfer.amount.minorUnits → p.units < 0 ∧ 0 < q.units) :=
  (postings_spec "Assets:Starling" c2transfer Option.none).1 ⟨rfl, rfl⟩

/-- Claim C3: whenever extraction succeeds, the emitted entry list consists
of transaction entries followed by exactly one trailing balance-assertion
entry; its date is the date of the last emitted transaction entry plus one
day when at least one transaction entry was emitted, and today plus one day
when none was; its amount is `totalClearedBalance.minorUnits / 100` in
`totalClearedBalance.currency`, posted on the configured ledger account;
and the returned value of `extract` is this list sorted, in which the
balance entry is still the only one. -/
theorem balance_entry_spec (cfg : Config) (doc : SnapshotDoc) (today : Date)
    (raw : List Entry) (h : extractRaw cfg doc today = Except.ok raw) :
    ∃ txents,
      (∀ e ∈ txents, isTxnEntry e = true) ∧
      raw = txents ++
        [Entry.bal ((match txents.getLast? with
                     | Option.some e => entryDate e
                     | Option.none => today) + 1)
          cfg.importer_account
          { number := (doc.balance.minorUnits : Rat) / 100,
            currency := doc.balance.currency }] ∧
      extract cfg doc today = Except.ok (sortEntries raw) ∧
      (sortEntries raw).countP isBalEntry = 1 := by
  obtain ⟨dc, ts, entries, hdc, hts, hent, hraw⟩ := extractRaw_inv h
  refine ⟨entries, extractEntries_all_txn hent, hraw, ?_, ?_⟩
  · unfold extract
    rw [h]
  · rw [countP_sortEntries, hraw, List.countP_append]
    have h1 : entries.countP isBalEntry = 0 := by
      rw [List.countP_eq_zero]
      intro e he
      have he2 := extractEntries_all_txn hent e he
      cases e
      · simp [isBalEntry]
      · simp [isTxnEntry] at he2
    rw [h1]
    simp [isBalEntry]

/-- Witness for C3 at the concrete `sampleDoc` (one settled transaction
dated day 20000): the raw entries are the transaction entries followed by
the one balance entry, and concretely the entry dates are `[20000, 20001]`
— the balance assertion follows the last transaction date by one day. -/
theorem balance_entry_spec_witness :
    (∃ txents,
      (∀ e ∈ txents, isTxnEntry e = true) ∧
      c3raw = txents ++
        [Entry.bal ((match txents.getLast? with
                     | Option.some e => entryDate e
                     | Option.none => (0 : Date)) + 1)
          sampleCfg.importer_account
          { number := (sampleDoc.balance.minorUnits : Rat) / 100,
            currency := sampleDoc.balance.currency }] ∧
      extract sampleCfg sampleDoc 0 = Except.ok (sortEntries c3raw) ∧
      (sortEntries c3raw).countP isBalEntry = 1) ∧
    c3raw.map entryDate = [20000, 20001] :=
  ⟨balance_entry_spec sampleCfg sampleDoc 0 c3raw rfl, by decide⟩

/-- Rounding to the nearest integer (ties to even) of a nonnegative number
is nonnegative. -/
theorem roundHalfEven_nonneg {q : Rat} (h : 0 ≤ q) : 0 ≤ roundHalfEven q := by
  have hf : (0 : Int) ≤ ⌊q⌋ := Int.floor_nonneg.mpr h
  unfold roundHalfEven
  dsimp only
  split
  · exact hf
  split
  · omega
  split
  · exact hf
  · omega

/-- Rounding a nonnegative number to five decimal places is nonnegative. -/
theorem round5_nonneg {q : Rat} (h : 0 ≤ q) : 0 ≤ round5 q := by
  unfold round5
  have h1 : 0 ≤ roundHalfEven (q * 100000) := roundHalfEven_nonneg (by positivity)
  have h2 : (0 : Rat) ≤ (roundHalfEven (q * 100000) : Rat) := by exact_mod_cast h1
  positivity

/-- Counterexample to C4 as stated: on `c4tiny` the currencies differ and
`sourceAmount.minorUnits` is nonzero, so a unit price is attached, but its
value is `round5 (1/1000000) = 0`, which is not positive. -/
theorem unit_price_counterexample :
    c4tiny.sourceAmount.currency ≠ c4tiny.amount.currency ∧
    c4tiny.sourceAmount.minorUnits ≠ 0 ∧
    get_unit_price c4tiny
      = Except.ok (Option.some { number := 0, currency := "USD" }) ∧
    ¬ (0 : Rat) < 0 := by
  refine ⟨by decide, by decide, ?_, lt_irrefl 0⟩
  unfold get_unit_price
  rw [if_pos (⟨by decide, by decide⟩ :
        c4tiny.sourceAmount.currency ≠ c4tiny.amount.currency ∧
        c4tiny.sourceAmount.minorUnits ≠ 0)]
  rw [if_neg (by decide : ¬ c4tiny.amount.minorUnits = 0)]
  have hval : round5 |(c4tiny.sourceAmount.minorUnits : Rat) / (c4tiny.amount.minorUnits : Rat)|
      = 0 := by
    rw [show ((c4tiny.sourceAmount.minorUnits : Rat)) = 1 by norm_num [c4tiny, sampleTxn]]
    rw [show ((c4tiny.amount.minorUnits : Rat)) = 1000000 by norm_num [c4tiny, sampleTxn]]
    rw [show (|(1 : ℚ)/1000000|) = 1/1000000 from abs_of_nonneg (by norm_num)]
    unfold round5 roundHalfEven
    dsimp only
    rw [show ((1 : ℚ)/1000000 * 100000) = 1/10 by norm_num]
    rw [show ⌊(1 : ℚ)/10⌋ = 0 by norm_num]
    norm_num
  simp only [Except.ok.injEq, Option.some.injEq, Amount.mk.injEq]
  exact ⟨hval, rfl⟩

/-- Claim C4 (amended): when `get_unit_price` completes, a unit price is
present iff `sourceAmount.currency` differs from `amount.currency` and
`sourceAmount.minorUnits` is nonzero; when present its value is
`abs(sourceAmount.minorUnits / amount.minorUnits)` rounded half-even to 5
decimal places, always nonnegative (it can be zero when the ratio rounds
below the fifth decimal place), tagged with `sourceAmount.currency`. -/
theorem unit_price_spec (t : Transaction) (r : Option Amount)
    (h : get_unit_price t = Except.ok r) :
    (r.isSome = true ↔
      (t.sourceAmount.currency ≠ t.amount.currency ∧ t.sourceAmount.minorUnits ≠ 0)) ∧
    (∀ a, r = Option.some a →
      a.number = round5 |(t.sourceAmount.minorUnits : Rat) / (t.amount.minorUnits : Rat)| ∧
      0 ≤ a.number ∧ a.currency = t.sourceAmount.currency) := by
  unfold get_unit_price at h
  by_cases hc : t.sourceAmount.currency ≠ t.amount.currency ∧ t.sourceAmount.minorUnits ≠ 0
  · rw [if_pos hc] at h
    by_cases hz : t.amount.minorUnits = 0
    · rw [if_pos hz] at h
      cases h
    · rw [if_neg hz] at h
      simp only [Except.ok.injEq] at h
      subst h
      refine ⟨by simp [hc], ?_⟩
      intro a ha
      simp only [Option.some.injEq] at ha
      subst ha
      exact ⟨rfl, round5_nonneg (abs_nonneg _), rfl⟩
  · rw [if_neg hc] at h
    simp only [Except.ok.injEq] at h
    subst h
    refine ⟨by simp [hc], ?_⟩
    intro a ha
    cases ha

/-- `get_unit_price` on `c4fx` evaluates to `1.1 USD`. -/
theorem c4fx_price_eq : get_unit_price c4fx = Except.ok c4fxPrice := by
  unfold get_unit_price c4fxPrice
  rw [if_pos (⟨by decide, by decide⟩ :
        c4fx.sourceAmount.currency ≠ c4fx.amount.currency ∧
        c4fx.sourceAmount.minorUnits ≠ 0)]
  rw [if_neg (by decide : ¬ c4fx.amount.minorUnits = 0)]
  have hval : round5 |(c4fx.sourceAmount.minorUnits : Rat) / (c4fx.amount.minorUnits : Rat)|
      = 11 / 10 := by
    rw [show ((c4fx.sourceAmount.minorUnits : Rat)) = 1100 by norm_num [c4fx, sampleTxn]]
    rw [show ((c4fx.amount.minorUnits : Rat)) = 1000 by norm_num [c4fx, sampleTxn]]
    rw [show (|(1100 : ℚ)/1000|) = 11/10 by
          rw [abs_of_nonneg (by norm_num : (0 : ℚ) ≤ 1100/1000)]
          norm_num]
    unfold round5 roundHalfEven
    dsimp only
    rw [show ((11 : ℚ)/10 * 100000) = 110000 by norm_num]
    rw [show ⌊(110000 : ℚ)⌋ = 110000 by norm_num]
    norm_num
  simp only [Except.ok.injEq, Option.some.injEq, Amount.mk.injEq]
  exact ⟨hval, rfl⟩

/-- Witness for C4 (amended) at `c4fx` (`1100 USD` source over `1000 GBP`
local): the price is present, equal to the rounded absolute ratio, which is
concretely `1.1 USD`. -/
theorem unit_price_spec_witness :
    get_unit_price c4fx = Except.ok c4fxPrice ∧
    ((c4fxPrice.isSome = true ↔
      (c4fx.sourceAmount.currency ≠ c4fx.amount.currency ∧
       c4fx.sourceAmount.minorUnits ≠ 0)) ∧
     (∀ a, c4fxPrice = Option.some a →
       a.number = round5 |(c4fx.sourceAmount.minorUnits : Rat) / (c4fx.amount.minorUnits : Rat)| ∧
       0 ≤ a.number ∧ a.currency = c4fx.sourceAmount.currency)) ∧
    c4fxPrice = Option.some { number := 11 / 10, currency := "USD" } :=
  ⟨c4fx_price_eq, unit_price_spec c4fx c4fxPrice c4fx_price_eq, rfl⟩

/-- Counterexample to C5 as stated: the guard does not keep the divisor
nonzero — on `c5zero` the division is reached, its divisor
`amount.minorUnits` is zero, and `get_unit_price` raises
(`decimal.DivisionByZero`). -/
theorem division_guard_counterexample :
    divisionReached c5zero ∧ c5zero.amount.minorUnits = 0 ∧
    get_unit_price c5zero = Except.error () := by
  refine ⟨⟨by decide, by decide⟩, rfl, ?_⟩
  unfold get_unit_price
  rw [if_pos (⟨by decide, by decide⟩ :
        c5zero.sourceAmount.currency ≠ c5zero.amount.currency ∧
        c5zero.sourceAmount.minorUnits ≠ 0)]
  rw [if_pos (by decide : c5zero.amount.minorUnits = 0)]

/-- Claim C5 (amended): the guard makes the division's numerator
(`sourceAmount.minorUnits`), not its divisor, nonzero whenever the division
is reached; the divisor `amount.minorUnits` can still be zero, in exactly
which case `get_unit_price` raises a division error. -/
theorem division_guard (t : Transaction) (h : divisionReached t) :
    t.sourceAmount.minorUnits ≠ 0 ∧
    (get_unit_price t = Except.error () ↔ t.amount.minorUnits = 0) := by
  have hc : t.sourceAmount.currency ≠ t.amount.currency ∧ t.sourceAmount.minorUnits ≠ 0 := h
  refine ⟨h.2, ?_⟩
  unfold get_unit_price
  rw [if_pos hc]
  by_cases hz : t.amount.minorUnits = 0
  · rw [if_pos hz]
    simp [hz]
  · rw [if_neg hz]
    simp [hz]

/-- Witness for C5 (amended) at `c5fx`: the division is reached, the
numerator is nonzero, and no division error occurs since the divisor is
nonzero. -/
theorem division_guard_witness :
    divisionReached c5fx ∧
    (c5fx.sourceAmount.minorUnits ≠ 0 ∧
      (get_unit_price c5fx = Except.error () ↔ c5fx.amount.minorUnits = 0)) :=
  ⟨⟨by decide, by decide⟩, division_guard c5fx ⟨by decide, by decide⟩⟩

/-- Counterexample to C6 as stated: on a JSON-typed file whose content
fails to parse, `identify` raises instead of returning false —
`json.load` raises `json.JSONDecodeError` (a `ValueError`), which the
`except KeyError` clause of `get_account_id` does not catch. -/
theorem identify_malformed_counterexample :
    identify sampleCfg File.malformed = Except.error () := rfl

/-- Claim C6 (amended): `identify` returns true iff the file's guessed
content type is JSON, its content parses, and its `account.accountUid`
equals the configured account identifier; it returns false (and does not
throw) for a file of non-JSON type and for any parsed JSON file without a
matching `account.accountUid`; but for a JSON-typed file whose content
fails to parse it raises instead of returning false. -/
theorem identify_spec (cfg : Config) (f : File) :
    (identify cfg f = Except.ok true ↔
      ∃ doc a, f = File.json doc ∧ doc.account = Option.some a ∧
        a.accountUid = Option.some cfg.account_id) ∧
    (f = File.notJson → identify cfg f = Except.ok false) ∧
    (∀ doc, f = File.json doc → ∃ b, identify cfg f = Except.ok b) ∧
    (∀ doc a, f = File.json doc → doc.account = Option.some a →
      a.accountUid ≠ Option.some cfg.account_id → identify cfg f = Except.ok false) ∧
    (f = File.malformed → identify cfg f = Except.error ()) := by
  refine ⟨?_, ?_, ?_, ?_, ?_⟩
  · constructor
    · intro hb
      cases f with
      | notJson => simp [identify, get_account_id] at hb
      | malformed => simp [identify, get_account_id] at hb
      | json doc =>
        cases hacc : doc.account with
        | none => simp [identify, get_account_id, hacc] at hb
        | some a =>
          cases huid : a.accountUid with
          | none => simp [identify, get_account_id, hacc, huid] at hb
          | some uid =>
            simp only [identify, get_account_id, hacc, huid, Except.ok.injEq] at hb
            have : uid = cfg.account_id := by
              have hbeq : (Option.some uid == Option.some cfg.account_id) = true := hb
              simpa using hbeq
            exact ⟨doc, a, rfl, hacc, by rw [huid, this]⟩
    · rintro ⟨doc, a, hf, hacc, huid⟩
      subst hf
      simp [identify, get_account_id, hacc, huid]
  · rintro rfl
    simp [identify, get_account_id]
  · rintro doc rfl
    cases hacc : doc.account with
    | none => exact ⟨false, by simp [identify, get_account_id, hacc]⟩
    | some a =>
      exact ⟨(a.accountUid == Option.some cfg.account_id),
        by simp [identify, get_account_id, hacc]⟩
  · rintro doc a rfl hacc huid
    cases h2 : a.accountUid with
    | none => simp [identify, get_account_id, hacc, h2]
    | some uid =>
      have : uid ≠ cfg.account_id := by
        intro h3
        exact huid (by rw [h2, h3])
      simp [identify, get_account_id, hacc, h2, this]
  · rintro rfl
    rfl

/-- Witness for C6 (amended): the concrete `sampleDoc` file is matched by
the configuration with the same `accountUid`, a non-JSON file yields false,
and the same file under a different configured identifier yields false. -/
theorem identify_spec_witness :
    identify sampleCfg (File.json sampleDoc) = Except.ok true ∧
    identify sampleCfg File.notJson = Except.ok false ∧
    identify c6otherCfg (File.json sampleDoc) = Except.ok false :=
  ⟨(identify_spec sampleCfg (File.json sampleDoc)).1.mpr
      ⟨sampleDoc, sampleAccount, rfl, rfl, rfl⟩,
   (identify_spec sampleCfg File.notJson).2.1 rfl,
   (identify_spec c6otherCfg (File.json sampleDoc)).2.2.2.1 sampleDoc sampleAccount
      rfl rfl (by decide)⟩

/-- Folding list-append over a list of categories appends each category's
feed in order. -/
theorem foldl_append_feed {α : Type} (feed : String → List α) :
    ∀ (cats : List String) (init : List α),
      cats.foldl (fun acc c => acc ++ feed c) init = init ++ cats.flatMap feed
  | [], init => by simp
  | c :: cs, init => by
    simp only [List.foldl_cons, List.flatMap_cons]
    rw [foldl_append_feed feed cs (init ++ feed c), List.append_assoc]

/-- Claim C7: the downloader's assembled `feedItems` value equals the
default category's feed items followed by, for each space in the order
listed in the spaces response, that space's feed items; a spaces response
without a `savingsGoals` key yields just the default-category items (and is
not an error). -/
theorem downloader_assembly {α : Type} (feed : String → List α) (d : String)
    (goals : Option (List Space)) :
    get_account_transactions feed d goals
      = feed d ++ (goals.getD []).flatMap (fun s => feed s.savingsGoalUid) ∧
    get_account_transactions feed d Option.none = feed d := by
  have hmap : ∀ (spaces : List Space),
      (spaces.map Space.savingsGoalUid).flatMap feed
        = spaces.flatMap (fun s => feed s.savingsGoalUid) := by
    intro spaces
    induction spaces with
    | nil => rfl
    | cons a as ih => simp [List.flatMap_cons, ih]
  constructor
  · unfold get_account_transactions
    cases goals with
    | none => simp
    | some spaces =>
      dsimp only [Option.getD_some]
      rw [foldl_append_feed, hmap]
  · unfold get_account_transactions
    simp

/-- Claim C8: for every transaction whose entry is emitted, the entry's
narration is the non-empty members of
`[counterPartySubEntityName, reference, source]` (an absent key
contributing nothing) joined by `" / "`, and the entry's payee field is
`counterPartyName`, which is not part of the narration. -/
theorem narration_payee_spec (acct : String) (doc : SnapshotDoc) (dc : Option String)
    (t : Transaction) (e : Entry) (h : extractEntry acct doc dc t = Except.ok e) :
    entryNarration e = String.intercalate " / "
      (([t.counterPartySubEntityName.getD "", t.reference.getD "", t.source]).filter
        (fun s => s ≠ "")) ∧
    entryPayee e = t.counterPartyName := by
  unfold extractEntry at h
  split at h
  · cases h
  split at h
  · cases h
  simp only [Except.ok.injEq] at h
  subst h
  exact ⟨rfl, rfl⟩

/-- Witness for C8 at the concrete `sampleTxn` (sub-entity name
`High Street`, reference `Groceries`, source `MASTER_CARD`): the narration
is the three members joined by `" / "` and the payee is `Shop`. -/
theorem narration_payee_spec_witness :
    extractEntry "Assets:Starling" sampleDoc (Option.some "cat-d") sampleTxn
      = Except.ok c8entry ∧
    (entryNarration c8entry = String.intercalate " / "
      (([sampleTxn.counterPartySubEntityName.getD "", sampleTxn.reference.getD "",
         sampleTxn.source]).filter (fun s => s ≠ "")) ∧
     entryPayee c8entry = sampleTxn.counterPartyName) ∧
    entryNarration c8entry = "High Street / Groceries / MASTER_CARD" ∧
    entryPayee c8entry = "Shop" :=
  ⟨rfl,
   narration_payee_spec "Assets:Starling" sampleDoc (Option.some "cat-d") sampleTxn
     c8entry rfl,
   by decide, by decide⟩

/-- Counterexample to C9 as stated: `c9txn.counterPartyType` contains
`CATEGORY`, yet the `elif` chain takes the `PAYEE` branch (its substring
test runs first), performs the payee lookup, and the entry's metadata
carries the looked-up sort code while the raw counterparty type is not
recorded. -/
theorem category_counterparty_counterexample :
    strContains c9txn.counterPartyType "CATEGORY" = true ∧
    cpBranch c9txn = CpBranch.payee ∧
    transactionMetadata c9doc (Option.some "cat-d") c9txn = Except.ok c9meta ∧
    ("counterparty_sort_code", MetaValue.str "60-83-71") ∈ c9meta ∧
    ("counterparty_type", MetaValue.str "PAYEE CATEGORY") ∉ c9meta := by
  refine ⟨by decide, by decide, rfl, by decide, by decide⟩

/-- Shape of a successfully built metadata dictionary: a base part whose
keys are among `baseMetaKeys`, followed by the counterparty-branch pairs. -/
theorem transactionMetadata_shape {doc : SnapshotDoc} {dc : Option String}
    {t : Transaction} {m : Metadata}
    (h : transactionMetadata doc dc t = Except.ok m) :
    ∃ m4 : Metadata, (∀ k, k ∈ m4.map Prod.fst → k ∈ baseMetaKeys) ∧
      m = m4 ++ cpMeta doc t := by
  unfold transactionMetadata at h
  dsimp only at h
  by_cases hcat : Option.some t.categoryUid ≠ dc
  · rw [if_pos hcat] at h
    cases hgc : get_category_name doc t.categoryUid <;> rw [hgc] at h
    · cases h
    next name =>
      dsimp only at h
      cases href : t.reference <;> rw [href] at h <;> dsimp only at h <;>
          simp only [Except.ok.injEq] at h <;> refine ⟨_, ?_, h.symm⟩ <;>
          intro k hk <;>
          simp only [List.map_append, List.map_cons, List.map_nil, List.mem_append,
            List.mem_cons, List.not_mem_nil, or_false] at hk <;>
          unfold baseMetaKeys <;>
          simp only [List.mem_cons, List.not_mem_nil, or_false] <;>
          tauto
  · rw [if_neg hcat] at h
    dsimp only at h
    cases href : t.reference <;> rw [href] at h <;> dsimp only at h <;>
        simp only [Except.ok.injEq] at h <;> refine ⟨_, ?_, h.symm⟩ <;>
        intro k hk <;>
        simp only [List.map_append, List.map_cons, List.map_nil, List.mem_append,
          List.mem_cons, List.not_mem_nil, or_false] at hk <;>
        unfold baseMetaKeys <;>
        simp only [List.mem_cons, List.not_mem_nil, or_false] <;>
        tauto

/-- Claim C9 (amended): a transaction whose `counterPartyType` contains
`CATEGORY` but not `PAYEE` and does not satisfy the `SENDER` condition
takes the category branch — no payee lookup is performed and the raw
counterparty type, uid and name are recorded; a transaction whose
`counterPartyType` contains `PAYEE` (and does not satisfy the `SENDER`
condition) whose `payeeUid`/`payeeAccountUid` pair matches no entry in the
payees list yields metadata with no counterparty sort-code or
account-number key; and the metadata step never fails on account of the
payee lookup (whenever the space-name lookup is not triggered it
succeeds).  (As stated the claim fails because the `PAYEE` substring test
runs first: a type containing both `PAYEE` and `CATEGORY` does trigger the
payee lookup.) -/
theorem counterparty_enrichment (doc : SnapshotDoc) (dc : Option String)
    (t : Transaction) :
    (strContains t.counterPartyType "CATEGORY" = true →
     strContains t.counterPartyType "PAYEE" = false →
     senderCond t = false →
     cpBranch t = CpBranch.category ∧
     (∀ m, transactionMetadata doc dc t = Except.ok m →
       ("counterparty_type", MetaValue.str t.counterPartyType) ∈ m ∧
       ("counterparty_uid", MetaValue.str t.counterPartyUid) ∈ m ∧
       ("counterparty_name", MetaValue.str t.counterPartyName) ∈ m)) ∧
    (strContains t.counterPartyType "PAYEE" = true →
     senderCond t = false →
     get_payee_account doc.payees t.counterPartyUid t.counterPartySubEntityUid
       = Option.none →
     cpBranch t = CpBranch.payee ∧
     (∀ m v, transactionMetadata doc dc t = Except.ok m →
       ("counterparty_sort_code", v) ∉ m ∧
       ("counterparty_account_number", v) ∉ m)) ∧
    (Option.some t.categoryUid = dc →
     ∃ m, transactionMetadata doc dc t = Except.ok m) := by
  refine ⟨?_, ?_, ?_⟩
  · intro hC hP hS
    have hbr : cpBranch t = CpBranch.category := by
      simp [cpBranch, hC, hP, hS]
    refine ⟨hbr, ?_⟩
    intro m hm
    obtain ⟨m4, _, hshape⟩ := transactionMetadata_shape hm
    subst hshape
    have hcp : cpMeta doc t
        = [("counterparty_type", MetaValue.str t.counterPartyType),
           ("counterparty_uid", MetaValue.str t.counterPartyUid),
           ("counterparty_name", MetaValue.str t.counterPartyName)] := by
      unfold cpMeta
      rw [hbr]
    rw [hcp]
    refine ⟨?_, ?_, ?_⟩ <;> exact List.mem_append_right _ (by simp)
  · intro hP hS hnone
    have hbr : cpBranch t = CpBranch.payee := by
      simp [cpBranch, hP, hS]
    refine ⟨hbr, ?_⟩
    intro m v hm
    obtain ⟨m4, hkeys, hshape⟩ := transactionMetadata_shape hm
    subst hshape
    have hcp : cpMeta doc t = [] := by
      unfold cpMeta
      rw [hbr, hnone]
    rw [hcp, List.append_nil]
    refine ⟨?_, ?_⟩
    · intro hmem
      have hkm : "counterparty_sort_code" ∈ baseMetaKeys :=
        hkeys _ (List.mem_map.mpr ⟨_, hmem, rfl⟩)
      revert hkm
      decide
    · intro hmem
      have hkm : "counterparty_account_number" ∈ baseMetaKeys :=
        hkeys _ (List.mem_map.mpr ⟨_, hmem, rfl⟩)
      revert hkm
      decide
  · intro hcat
    unfold transactionMetadata
    dsimp only
    rw [if_neg (not_not_intro hcat)]
    exact ⟨_, rfl⟩

/-- Witness for C9 (amended) at the concrete `c9cat` (pure `CATEGORY` type)
and `c9pay` (pure `PAYEE` type with no matching payee pair): the category
branch records the raw fields, the unmatched payee branch yields no
sort-code/account-number metadata, and the metadata step succeeds. -/
theorem counterparty_enrichment_witness :
    (cpBranch c9cat = CpBranch.category ∧
     (∀ m, transactionMetadata sampleDoc (Option.some "cat-d") c9cat = Except.ok m →
       ("counterparty_type", MetaValue.str c9cat.counterPartyType) ∈ m ∧
       ("counterparty_uid", MetaValue.str c9cat.counterPartyUid) ∈ m ∧
       ("counterparty_name", MetaValue.str c9cat.counterPartyName) ∈ m)) ∧
    (cpBranch c9pay = CpBranch.payee ∧
     (∀ m v, transactionMetadata sampleDoc (Option.some "cat-d") c9pay = Except.ok m →
       ("counterparty_sort_code", v) ∉ m ∧
       ("counterparty_account_number", v) ∉ m)) ∧
    (∃ m, transactionMetadata sampleDoc (Option.some "cat-d") c9pay = Except.ok m) :=
  ⟨(counterparty_enrichment sampleDoc (Option.some "cat-d") c9cat).1
      (by decide) (by decide) (by decide),
   (counterparty_enrichment sampleDoc (Option.some "cat-d") c9pay).2.1
      (by decide) (by decide) (by decide),
   (counterparty_enrichment sampleDoc (Option.some "cat-d") c9pay).2.2 rfl⟩

/-- Claim C10: when the spaces object has no `savingsGoals` key, any
valid-status feed item whose `categoryUid` differs from the account's
default category makes `extract` fail with an error (the space-name lookup
iterates a missing list); and when `savingsGoals` is present but contains
no goal matching the `categoryUid`, the metadata carries a
`bank_space_name` key with a null value rather than omitting the key. -/
theorem missing_savings_goals_spec (cfg : Config) (doc : SnapshotDoc) (today : Date)
    (d : String) (ts : List Transaction) (t : Transaction) (dc : Option String)
    (gs : List Space) :
    (get_account_default_category doc = Except.ok (Option.some d) →
     doc.transactions = Option.some ts →
     doc.savingsGoals = Option.none →
     t ∈ ts →
     VALID_STATUS.contains t.status = true →
     t.categoryUid ≠ d →
     extract cfg doc today = Except.error ()) ∧
    (Option.some t.categoryUid ≠ dc →
     doc.savingsGoals = Option.some gs →
     (∀ g ∈ gs, g.savingsGoalUid ≠ t.categoryUid) →
     ∃ m, transactionMetadata doc dc t = Except.ok m ∧
       ("bank_space_name", MetaValue.none) ∈ m) := by
  constructor
  · intro hdc hts hsg hmem hval htne
    have hgc : get_category_name doc t.categoryUid = Except.error () := by
      unfold get_category_name
      rw [hsg]
    have hmeta : transactionMetadata doc (Option.some d) t = Except.error () := by
      unfold transactionMetadata
      dsimp only
      rw [if_pos (by simpa using htne), hgc]
    have hentry : extractEntry cfg.importer_account doc (Option.some d) t
        = Except.error () := by
      unfold extractEntry
      rw [hmeta]
    have herr : extractEntries cfg.importer_account doc (Option.some d)
        (ts.reverse.filter (fun x => VALID_STATUS.contains x.status))
        = Except.error () :=
      extractEntries_error (List.mem_filter.mpr ⟨List.mem_reverse.mpr hmem, hval⟩) hentry
    have hts2 : get_transactions doc = Except.ok ts := by
      unfold get_transactions
      rw [hts]
    have hraw : extractRaw cfg doc today = Except.error () := by
      unfold extractRaw
      rw [hdc]
      dsimp only
      rw [hts2]
      dsimp only
      rw [herr]
    unfold extract
    rw [hraw]
  · intro hcat hsg hnomatch
    have hfind : gs.find? (fun s => s.savingsGoalUid == t.categoryUid) = Option.none :=
      List.find?_eq_none.mpr (fun g hg => by simpa using hnomatch g hg)
    have hgc : get_category_name doc t.categoryUid = Except.ok Option.none := by
      unfold get_category_name
      rw [hsg]
      dsimp only
      rw [hfind]
      rfl
    cases href : t.reference with
    | none =>
      refine ⟨(([("bank_id", MetaValue.str t.feedItemUid)] ++
          [("bank_category", MetaValue.str t.categoryUid),
           ("bank_space_name", optMeta Option.none)]) ++
          [("bank_created_date", MetaValue.date t.transactionTime),
           ("bank_settlement_date", MetaValue.str t.settlementTime),
           ("bank_updated_date", MetaValue.str t.updatedAt)]) ++ cpMeta doc t, ?_, ?_⟩
      · unfold transactionMetadata
        dsimp only
        rw [if_pos hcat, hgc]
        dsimp only
        rw [href]
      · simp [optMeta]
    | some r =>
      refine ⟨((([("bank_id", MetaValue.str t.feedItemUid)] ++
          [("bank_category", MetaValue.str t.categoryUid),
           ("bank_space_name", optMeta Option.none)]) ++
          [("bank_description", MetaValue.str r)]) ++
          [("bank_created_date", MetaValue.date t.transactionTime),
           ("bank_settlement_date", MetaValue.str t.settlementTime),
           ("bank_updated_date", MetaValue.str t.updatedAt)]) ++ cpMeta doc t, ?_, ?_⟩
      · unfold transactionMetadata
        dsimp only
        rw [if_pos hcat, hgc]
        dsimp only
        rw [href]
      · simp [optMeta]

/-- Witness for C10 at the concrete documents: extraction of `c10doc`
(missing `savingsGoals`, space transaction present) errors, and the
metadata built against `c10doc2` (present but unmatched `savingsGoals`)
carries a null-valued `bank_space_name` key. -/
theorem missing_savings_goals_witness :
    extract sampleCfg c10doc 0 = Except.error () ∧
    (∃ m, transactionMetadata c10doc2 (Option.some "cat-d") c10tx = Except.ok m ∧
      ("bank_space_name", MetaValue.none) ∈ m) :=
  ⟨(missing_savings_goals_spec sampleCfg c10doc 0 "cat-d" [c10tx] c10tx
      (Option.some "cat-d") []).1 rfl rfl rfl (by decide) (by decide) (by decide),
   (missing_savings_goals_spec sampleCfg c10doc2 0 "cat-d" [] c10tx
      (Option.some "cat-d")
      [{ savingsGoalUid := "other-goal", name := "Other" }]).2
      (by decide) rfl (by decide)⟩

end Starling
